import Mathlib

/-!
Verification of the character-categorization core of helix-core
(`src/helix-core/src/chars.rs`).

Characters are embedded as their Unicode scalar values (`Nat`).  The
classifier's external collaborators (spec section 6) are handled as follows:

* the line-ending recognizer (`LineEnding::from_char`, not part of the
  sources here) is modelled from the spec, parameterized by the
  build-time mode choice (LF-only vs. extended Unicode separators);
* the platform generic whitespace property (`char::is_whitespace`) is
  modelled as the Unicode `White_Space` property it implements;
* the platform alphanumeric property and the general-category lookup are
  kept abstract: `categorize_char` takes them as parameters, and
  theorems that need concrete values of them state those values as
  hypotheses.
-/

/-- The closed category enumeration, from `CharCategory` in chars.rs. -/
inductive CharCategory where
  | Whitespace
  | Eol
  | Word
  | Punctuation
  | Unknown
  | Hiragana
  | Katakana
  | Kanji
deriving DecidableEq, Repr

/-- The Unicode general-category enumeration of the external
`unicode_general_category` crate, used by `char_is_punctuation`. -/
inductive GeneralCategory where
  | ClosePunctuation
  | ConnectorPunctuation
  | Control
  | CurrencySymbol
  | DashPunctuation
  | DecimalNumber
  | EnclosingMark
  | FinalPunctuation
  | Format
  | InitialPunctuation
  | LetterNumber
  | LineSeparator
  | LowercaseLetter
  | MathSymbol
  | ModifierLetter
  | ModifierSymbol
  | NonspacingMark
  | OpenPunctuation
  | OtherLetter
  | OtherNumber
  | OtherPunctuation
  | OtherSymbol
  | ParagraphSeparator
  | PrivateUse
  | SpaceSeparator
  | SpacingMark
  | Surrogate
  | TitlecaseLetter
  | UppercaseLetter
  | Unassigned
deriving DecidableEq, Repr

/-- Membership of a scalar value in a list of inclusive ranges. -/
def inRanges (rs : List (Nat × Nat)) (c : Nat) : Bool :=
  rs.any fun r => decide (r.1 ≤ c ∧ c ≤ r.2)

/-- The inclusive ranges tested by `char_is_hiragana`, in source order:
Hiragana (partial block), combining marks through the end of the block,
Kana Extended-A, Kana Extended-B, Kana Supplement, Small Kana Extension. -/
def hiragana_ranges : List (Nat × Nat) :=
  [(0x3041, 0x3096), (0x3099, 0x309F), (0x1B100, 0x1B12F),
   (0x1AFF0, 0x1AFFF), (0x1B000, 0x1B0FF), (0x1B130, 0x1B16F)]

/-- The inclusive range tested by `char_is_katakana`: the Katakana block. -/
def katakana_ranges : List (Nat × Nat) :=
  [(0x30A0, 0x30FF)]

/-- The inclusive ranges tested by `char_is_kanji`, in source order:
CJK Unified Ideographs, Extension A, Extension B, Extension C,
Extension D, Extension E, Extension F, Extension G, Extension H,
the range U+2EBF0 to U+2EE5D (commented "Extension H" in the source but
actually the Extension I block), CJK Compatibility Ideographs, and the
CJK Compatibility Ideographs Supplement. -/
def kanji_ranges : List (Nat × Nat) :=
  [(0x4E00, 0x9FFF), (0x3400, 0x4DBF), (0x20000, 0x2A6DF),
   (0x2A700, 0x2B739), (0x2B740, 0x2B81D), (0x2B820, 0x2CEA1),
   (0x2CEB0, 0x2EBE0), (0x30000, 0x3134A), (0x31350, 0x323AF),
   (0x2EBF0, 0x2EE5D), (0xF900, 0xFAFF), (0x2F800, 0x2FA1F)]

/-- `char_is_hiragana` from chars.rs: membership in its range list. -/
def char_is_hiragana (c : Nat) : Bool :=
  inRanges hiragana_ranges c

/-- `char_is_katakana` from chars.rs: membership in the Katakana block. -/
def char_is_katakana (c : Nat) : Bool :=
  inRanges katakana_ranges c

/-- `char_is_kanji` from chars.rs: membership in its range list. -/
def char_is_kanji (c : Nat) : Bool :=
  inRanges kanji_ranges c

/-- Modelled from the spec: the external line-ending recognizer
(`LineEnding`, whose source is not under src/).  Spec section 6: a
build-time choice between "only line-feed" and an extended mode that
additionally recognizes vertical tab, form feed, next-line, line
separator, and paragraph separator. -/
inductive LineEnding where
  | LF
  | VT
  | FF
  | Nel
  | LS
  | PS
deriving DecidableEq, Repr

/-- Modelled from the spec: `LineEnding::from_char`, parameterized by the
mode flag `uni` (false = LF-only, true = extended Unicode separators). -/
def LineEnding.from_char (uni : Bool) (c : Nat) : Option LineEnding :=
  if c = 0x000A then some .LF
  else if uni then
    if c = 0x000B then some .VT
    else if c = 0x000C then some .FF
    else if c = 0x0085 then some .Nel
    else if c = 0x2028 then some .LS
    else if c = 0x2029 then some .PS
    else none
  else none

/-- `char_is_line_ending` from chars.rs: `LineEnding::from_char(ch).is_some()`. -/
def char_is_line_ending (uni : Bool) (c : Nat) : Bool :=
  (LineEnding.from_char uni c).isSome

/-- Modelled from the spec: the platform's built-in generic whitespace
property (`char::is_whitespace`, an external collaborator per spec
section 6), i.e. the Unicode `White_Space` property. -/
def is_whitespace (c : Nat) : Bool :=
  decide ((0x0009 ≤ c ∧ c ≤ 0x000D) ∨ c = 0x0020 ∨ c = 0x0085 ∨
    c = 0x00A0 ∨ c = 0x1680 ∨ (0x2000 ≤ c ∧ c ≤ 0x200A) ∨
    c = 0x2028 ∨ c = 0x2029 ∨ c = 0x202F ∨ c = 0x205F ∨ c = 0x3000)

/-- `char_is_whitespace` from chars.rs: the narrow enumerated whitespace
predicate (eight listed characters plus the range U+2000 to U+200B). -/
def char_is_whitespace (c : Nat) : Bool :=
  if c = 0x0009 ∨ c = 0x0020 ∨ c = 0x00A0 ∨ c = 0x180E ∨
      c = 0x202F ∨ c = 0x205F ∨ c = 0x3000 ∨ c = 0xFEFF then true
  else if 0x2000 ≤ c ∧ c ≤ 0x200B then true
  else false

/-- `char_is_punctuation` from chars.rs, with the external
general-category lookup passed in as `gc`. -/
def char_is_punctuation (gc : Nat → GeneralCategory) (c : Nat) : Bool :=
  match gc c with
  | .OtherPunctuation | .OpenPunctuation | .ClosePunctuation
  | .InitialPunctuation | .FinalPunctuation | .ConnectorPunctuation
  | .DashPunctuation | .MathSymbol | .CurrencySymbol
  | .ModifierSymbol => true
  | _ => false

/-- `char_is_word` from chars.rs, with the external alphanumeric
property passed in as `alnum`: alphanumeric or underscore (U+005F). -/
def char_is_word (alnum : Nat → Bool) (c : Nat) : Bool :=
  alnum c || decide (c = 0x5F)

/-- `categorize_char` from chars.rs: the priority classifier.
`uni` is the line-ending mode, `alnum` and `gc` the external
alphanumeric property and general-category lookup. -/
def categorize_char (uni : Bool) (alnum : Nat → Bool)
    (gc : Nat → GeneralCategory) (ch : Nat) : CharCategory :=
  if char_is_hiragana ch then .Hiragana
  else if char_is_katakana ch then .Katakana
  else if char_is_kanji ch then .Kanji
  else if char_is_line_ending uni ch then .Eol
  else if is_whitespace ch then .Whitespace
  else if char_is_word alnum ch then .Word
  else if char_is_punctuation gc ch then .Punctuation
  else .Unknown

/-- A concrete stand-in for the platform alphanumeric property, used by
witness instantiations: false everywhere it is queried there. -/
def alnum_model : Nat → Bool := fun _ => false

/-- A concrete stand-in for the general-category lookup, used by witness
instantiations: OtherPunctuation at U+0021 (the exclamation mark),
PrivateUse elsewhere. -/
def gc_model : Nat → GeneralCategory := fun c =>
  if c = 0x21 then .OtherPunctuation else .PrivateUse

theorem char_is_hiragana_iff (c : Nat) : char_is_hiragana c = true ↔
    ((0x3041 ≤ c ∧ c ≤ 0x3096) ∨ (0x3099 ≤ c ∧ c ≤ 0x309F) ∨
     (0x1B100 ≤ c ∧ c ≤ 0x1B12F) ∨ (0x1AFF0 ≤ c ∧ c ≤ 0x1AFFF) ∨
     (0x1B000 ≤ c ∧ c ≤ 0x1B0FF) ∨ (0x1B130 ≤ c ∧ c ≤ 0x1B16F)) := by
  simp [char_is_hiragana, inRanges, hiragana_ranges]

theorem char_is_katakana_iff (c : Nat) : char_is_katakana c = true ↔
    (0x30A0 ≤ c ∧ c ≤ 0x30FF) := by
  simp [char_is_katakana, inRanges, katakana_ranges]

theorem char_is_kanji_iff (c : Nat) : char_is_kanji c = true ↔
    ((0x4E00 ≤ c ∧ c ≤ 0x9FFF) ∨ (0x3400 ≤ c ∧ c ≤ 0x4DBF) ∨
     (0x20000 ≤ c ∧ c ≤ 0x2A6DF) ∨ (0x2A700 ≤ c ∧ c ≤ 0x2B739) ∨
     (0x2B740 ≤ c ∧ c ≤ 0x2B81D) ∨ (0x2B820 ≤ c ∧ c ≤ 0x2CEA1) ∨
     (0x2CEB0 ≤ c ∧ c ≤ 0x2EBE0) ∨ (0x30000 ≤ c ∧ c ≤ 0x3134A) ∨
     (0x31350 ≤ c ∧ c ≤ 0x323AF) ∨ (0x2EBF0 ≤ c ∧ c ≤ 0x2EE5D) ∨
     (0xF900 ≤ c ∧ c ≤ 0xFAFF) ∨ (0x2F800 ≤ c ∧ c ≤ 0x2FA1F)) := by
  simp [char_is_kanji, inRanges, kanji_ranges]

theorem char_is_line_ending_iff (uni : Bool) (c : Nat) :
    char_is_line_ending uni c = true ↔
    (c = 0x000A ∨ (uni = true ∧ (c = 0x000B ∨ c = 0x000C ∨ c = 0x0085 ∨
      c = 0x2028 ∨ c = 0x2029))) := by
  cases uni <;> simp [char_is_line_ending, LineEnding.from_char]
  split_ifs <;> simp_all

theorem char_is_whitespace_iff (c : Nat) : char_is_whitespace c = true ↔
    (c = 0x0009 ∨ c = 0x0020 ∨ c = 0x00A0 ∨ c = 0x180E ∨ c = 0x202F ∨
     c = 0x205F ∨ c = 0x3000 ∨ c = 0xFEFF ∨ (0x2000 ≤ c ∧ c ≤ 0x200B)) := by
  simp only [char_is_whitespace]
  split_ifs <;> simp_all
  omega

/-- C1: for every scalar value, `categorize_char` returns the category of
the first matching predicate in the fixed precedence order hiragana,
katakana, kanji, line-ending, generic whitespace, word, punctuation, with
Unknown as the fallback; in particular, when several predicates match the
result is the category of the highest-precedence matching one.  Stated
for every line-ending mode and every value of the external alphanumeric
and general-category collaborators. -/
theorem categorize_char_first_match (uni : Bool) (alnum : Nat → Bool)
    (gc : Nat → GeneralCategory) (c : Nat) :
    (char_is_hiragana c = true →
      categorize_char uni alnum gc c = CharCategory.Hiragana) ∧
    (char_is_hiragana c = false → char_is_katakana c = true →
      categorize_char uni alnum gc c = CharCategory.Katakana) ∧
    (char_is_hiragana c = false → char_is_katakana c = false →
      char_is_kanji c = true →
      categorize_char uni alnum gc c = CharCategory.Kanji) ∧
    (char_is_hiragana c = false → char_is_katakana c = false →
      char_is_kanji c = false → char_is_line_ending uni c = true →
      categorize_char uni alnum gc c = CharCategory.Eol) ∧
    (char_is_hiragana c = false → char_is_katakana c = false →
      char_is_kanji c = false → char_is_line_ending uni c = false →
      is_whitespace c = true →
      categorize_char uni alnum gc c = CharCategory.Whitespace) ∧
    (char_is_hiragana c = false → char_is_katakana c = false →
      char_is_kanji c = false → char_is_line_ending uni c = false →
      is_whitespace c = false → char_is_word alnum c = true →
      categorize_char uni alnum gc c = CharCategory.Word) ∧
    (char_is_hiragana c = false → char_is_katakana c = false →
      char_is_kanji c = false → char_is_line_ending uni c = false →
      is_whitespace c = false → char_is_word alnum c = false →
      char_is_punctuation gc c = true →
      categorize_char uni alnum gc c = CharCategory.Punctuation) ∧
    (char_is_hiragana c = false → char_is_katakana c = false →
      char_is_kanji c = false → char_is_line_ending uni c = false →
      is_whitespace c = false → char_is_word alnum c = false →
      char_is_punctuation gc c = false →
      categorize_char uni alnum gc c = CharCategory.Unknown) := by
  refine ⟨?_, ?_, ?_, ?_, ?_, ?_, ?_, ?_⟩ <;> intros <;>
    simp_all [categorize_char]

/-- Witness for C1: the first-match property applied at the combining
mark U+3099, which lies in both the hiragana table and no other. -/
theorem categorize_char_first_match_witness :
    categorize_char false alnum_model gc_model 0x3099 =
      CharCategory.Hiragana :=
  (categorize_char_first_match false alnum_model gc_model 0x3099).1
    (by decide)

/-- C2: `categorize_char` is total: for every scalar value (and every
line-ending mode and external collaborator) it returns exactly one of the
eight categories; being a Lean function into `CharCategory` it has no
panic, error return, or undefined case. -/
theorem categorize_char_total (uni : Bool) (alnum : Nat → Bool)
    (gc : Nat → GeneralCategory) (c : Nat) :
    categorize_char uni alnum gc c = CharCategory.Whitespace ∨
    categorize_char uni alnum gc c = CharCategory.Eol ∨
    categorize_char uni alnum gc c = CharCategory.Word ∨
    categorize_char uni alnum gc c = CharCategory.Punctuation ∨
    categorize_char uni alnum gc c = CharCategory.Unknown ∨
    categorize_char uni alnum gc c = CharCategory.Hiragana ∨
    categorize_char uni alnum gc c = CharCategory.Katakana ∨
    categorize_char uni alnum gc c = CharCategory.Kanji := by
  cases h : categorize_char uni alnum gc c <;> simp

/-- The kanji blocks exactly as the claim enumerates them: CJK Unified
Ideographs, Extensions A through H, CJK Compatibility Ideographs and its
Supplement — without the additional U+2EBF0 to U+2EE5D range (the
Extension I block, labelled "Extension H" in a source comment) that the
code also tests. -/
def kanji_claim_ranges : List (Nat × Nat) :=
  [(0x4E00, 0x9FFF), (0x3400, 0x4DBF), (0x20000, 0x2A6DF),
   (0x2A700, 0x2B739), (0x2B740, 0x2B81D), (0x2B820, 0x2CEA1),
   (0x2CEB0, 0x2EBE0), (0x30000, 0x3134A), (0x31350, 0x323AF),
   (0xF900, 0xFAFF), (0x2F800, 0x2FA1F)]

/-- C3 counterexample: U+2EBF0 is accepted by `char_is_kanji` although it
lies outside the union of blocks the claim enumerates. -/
theorem char_is_kanji_claim_cex :
    char_is_kanji 0x2EBF0 = true ∧
    inRanges kanji_claim_ranges 0x2EBF0 = false := by decide

/-- C3 amended: `char_is_kanji` returns true exactly on the union of the
enumerated blocks plus the additional block U+2EBF0 to U+2EE5D (CJK
Unified Ideographs Extension I, labelled "Extension H" in the source
comment). -/
theorem char_is_kanji_blocks_amended (c : Nat) :
    char_is_kanji c = true ↔
    (inRanges kanji_claim_ranges c = true ∨
     (0x2EBF0 ≤ c ∧ c ≤ 0x2EE5D)) := by
  simp [char_is_kanji_iff, inRanges, kanji_claim_ranges]
  omega

/-- C5: the narrow whitespace predicate accepts exactly the eight
enumerated characters plus the inclusive range U+2000 to U+200B, and
rejects every other scalar value. -/
theorem char_is_whitespace_exact (c : Nat) :
    char_is_whitespace c = true ↔
    (c ∈ [0x0009, 0x0020, 0x00A0, 0x180E, 0x202F, 0x205F, 0x3000,
      0xFEFF] ∨ (0x2000 ≤ c ∧ c ≤ 0x200B)) := by
  simp [char_is_whitespace_iff]
  omega

/-- Every range of a table has its low bound at most its high bound. -/
def ranges_le (rs : List (Nat × Nat)) : Prop :=
  ∀ r ∈ rs, r.1 ≤ r.2

/-- No two ranges of a table share a scalar value. -/
def ranges_disjoint (rs : List (Nat × Nat)) : Prop :=
  rs.Pairwise fun a b => a.2 < b.1 ∨ b.2 < a.1

/-- The table is listed in ascending order of the low bounds. -/
def ranges_ascending (rs : List (Nat × Nat)) : Prop :=
  (rs.map Prod.fst).Sorted (· ≤ ·)

/-- C6 counterexample: the script range tables are not all listed in
ascending order of their low bounds (the kanji table starts with
U+4E00 and then drops back to U+3400; the hiragana table is likewise
unsorted). -/
theorem ranges_ascending_cex :
    ¬ (ranges_ascending hiragana_ranges ∧
       ranges_ascending katakana_ranges ∧
       ranges_ascending kanji_ranges) := by
  simp only [ranges_ascending]
  decide

/-- C6 amended: in every script range table each inclusive range
satisfies low ≤ high and no two ranges overlap, and the single-range
katakana table is trivially in ascending order; but the hiragana and
kanji tables are not listed in ascending order of their low bounds. -/
theorem ranges_wellformed_amended :
    (ranges_le hiragana_ranges ∧ ranges_disjoint hiragana_ranges) ∧
    (ranges_le katakana_ranges ∧ ranges_disjoint katakana_ranges) ∧
    (ranges_le kanji_ranges ∧ ranges_disjoint kanji_ranges) ∧
    ranges_ascending katakana_ranges := by
  simp only [ranges_le, ranges_disjoint, ranges_ascending]
  decide

/-- C9: the three script predicates are pairwise disjoint — for every
scalar value at most one of hiragana, katakana, kanji is true. -/
theorem scripts_pairwise_disjoint (c : Nat) :
    (char_is_hiragana c = true →
      char_is_katakana c = false ∧ char_is_kanji c = false) ∧
    (char_is_katakana c = true → char_is_kanji c = false) := by
  simp only [char_is_hiragana_iff, char_is_katakana_iff,
    char_is_kanji_iff, Bool.eq_false_iff, ne_eq]
  omega

/-- Witness for C9: U+3042 is hiragana, hence neither katakana nor
kanji. -/
theorem scripts_pairwise_disjoint_witness :
    char_is_katakana 0x3042 = false ∧ char_is_kanji 0x3042 = false :=
  (scripts_pairwise_disjoint 0x3042).1 (by decide)

/-- C10: `char_is_hiragana` rejects the unassigned points U+3040, U+3097
and U+3098 of the Hiragana block, while accepting all of U+3041 to
U+3096, U+3099 to U+309F (including the combining voiced-sound marks),
and all of the Kana Extended-A, Kana Extended-B, Kana Supplement and
Small Kana Extension blocks. -/
theorem char_is_hiragana_coverage :
    char_is_hiragana 0x3040 = false ∧ char_is_hiragana 0x3097 = false ∧
    char_is_hiragana 0x3098 = false ∧
    (∀ c, 0x3041 ≤ c → c ≤ 0x3096 → char_is_hiragana c = true) ∧
    (∀ c, 0x3099 ≤ c → c ≤ 0x309F → char_is_hiragana c = true) ∧
    (∀ c, 0x1B100 ≤ c → c ≤ 0x1B12F → char_is_hiragana c = true) ∧
    (∀ c, 0x1AFF0 ≤ c → c ≤ 0x1AFFF → char_is_hiragana c = true) ∧
    (∀ c, 0x1B000 ≤ c → c ≤ 0x1B0FF → char_is_hiragana c = true) ∧
    (∀ c, 0x1B130 ≤ c → c ≤ 0x1B16F → char_is_hiragana c = true) := by
  refine ⟨by decide, by decide, by decide, ?_, ?_, ?_, ?_, ?_, ?_⟩ <;>
    exact fun c h1 h2 => (char_is_hiragana_iff c).mpr (by omega)

/-- Witness for C10: the combining voiced-sound mark U+3099 is accepted. -/
theorem char_is_hiragana_coverage_witness :
    char_is_hiragana 0x3099 = true :=
  char_is_hiragana_coverage.2.2.2.2.1 0x3099 (by decide) (by decide)

/-- C4 counterexample: the zero-width space U+200B is accepted by the
narrow predicate `char_is_whitespace` but does not satisfy the generic
whitespace property used by dispatch step 5 (it lacks the Unicode
White_Space property), and `categorize_char` classifies it as Unknown
(its general category, Format, is not alphanumeric and not in the
punctuation predicate's list, a fact `gc_model` and `alnum_model`
reproduce at U+200B). -/
theorem char_is_whitespace_subset_cex :
    char_is_whitespace 0x200B = true ∧
    is_whitespace 0x200B = false ∧
    categorize_char false alnum_model gc_model 0x200B =
      CharCategory.Unknown := by
  decide

/-- C4 amended: the narrow whitespace predicate is contained in the
generic whitespace property except at the three format characters
U+180E, U+200B and U+FEFF; every other scalar value it accepts satisfies
the generic property and is classified as Whitespace by
`categorize_char` (hence never Unknown), for every line-ending mode and
every value of the external collaborators. -/
theorem char_is_whitespace_subset_amended (c : Nat)
    (h : char_is_whitespace c = true)
    (h1 : c ≠ 0x180E) (h2 : c ≠ 0x200B) (h3 : c ≠ 0xFEFF) :
    is_whitespace c = true ∧
    ∀ uni alnum gc, categorize_char uni alnum gc c =
      CharCategory.Whitespace := by
  rw [char_is_whitespace_iff] at h
  have hw : is_whitespace c = true := by
    simp only [is_whitespace, decide_eq_true_eq]
    omega
  refine ⟨hw, fun uni alnum gc => ?_⟩
  have hh : ¬ char_is_hiragana c = true := by
    rw [char_is_hiragana_iff]; omega
  have hk : ¬ char_is_katakana c = true := by
    rw [char_is_katakana_iff]; omega
  have hj : ¬ char_is_kanji c = true := by
    rw [char_is_kanji_iff]; omega
  have hl : ¬ char_is_line_ending uni c = true := by
    rw [char_is_line_ending_iff]
    rintro (h' | ⟨-, h'⟩) <;> omega
  simp [categorize_char, hh, hk, hj, hl, hw]

/-- Witness for the amended C4 at the plain space U+0020. -/
theorem char_is_whitespace_subset_amended_witness :
    is_whitespace 0x20 = true ∧
    ∀ uni alnum gc, categorize_char uni alnum gc 0x20 =
      CharCategory.Whitespace :=
  char_is_whitespace_subset_amended 0x20 (by decide) (by decide)
    (by decide) (by decide)

/-- C7: whenever the (spec-modelled) line-ending recognizer reports true,
`categorize_char` returns Eol; moreover every such scalar value also
satisfies the generic whitespace property, so the line-ending check
indeed takes precedence over the whitespace check. -/
theorem line_ending_precedence (uni : Bool) (alnum : Nat → Bool)
    (gc : Nat → GeneralCategory) (c : Nat)
    (h : char_is_line_ending uni c = true) :
    categorize_char uni alnum gc c = CharCategory.Eol ∧
    is_whitespace c = true := by
  have hset : c = 0x000A ∨ c = 0x000B ∨ c = 0x000C ∨ c = 0x0085 ∨
      c = 0x2028 ∨ c = 0x2029 := by
    have h' := (char_is_line_ending_iff uni c).mp h
    rcases h' with h' | ⟨-, h'⟩ <;> omega
  have hh : ¬ char_is_hiragana c = true := by
    rw [char_is_hiragana_iff]; omega
  have hk : ¬ char_is_katakana c = true := by
    rw [char_is_katakana_iff]; omega
  have hj : ¬ char_is_kanji c = true := by
    rw [char_is_kanji_iff]; omega
  have hw : is_whitespace c = true := by
    simp only [is_whitespace, decide_eq_true_eq]
    omega
  refine ⟨?_, hw⟩
  simp [categorize_char, hh, hk, hj, h]

/-- Witness for C7 at the line separator U+2028 in extended mode, a
scalar value that is also generic whitespace. -/
theorem line_ending_precedence_witness :
    categorize_char true alnum_model gc_model 0x2028 =
      CharCategory.Eol ∧
    is_whitespace 0x2028 = true :=
  line_ending_precedence true alnum_model gc_model 0x2028 (by decide)

/-- C8: the spec's concrete scenarios — LF yields Eol, U+3042 Hiragana,
U+30FC Katakana, U+4E00 Kanji, underscore Word, exclamation mark
Punctuation, space Whitespace, the private-use U+E000 Unknown — and every
scalar value in each script range table yields exactly that script's
category.  Stated for every line-ending mode and for all external
collaborators agreeing with Unicode at U+0021 (OtherPunctuation, not
alphanumeric) and U+E000 (PrivateUse, not alphanumeric). -/
theorem categorize_char_scenarios (uni : Bool) (alnum : Nat → Bool)
    (gc : Nat → GeneralCategory)
    (ha1 : alnum 0x0021 = false)
    (hg1 : gc 0x0021 = GeneralCategory.OtherPunctuation)
    (ha2 : alnum 0xE000 = false)
    (hg2 : gc 0xE000 = GeneralCategory.PrivateUse) :
    categorize_char uni alnum gc 0x000A = CharCategory.Eol ∧
    categorize_char uni alnum gc 0x3042 = CharCategory.Hiragana ∧
    categorize_char uni alnum gc 0x30FC = CharCategory.Katakana ∧
    categorize_char uni alnum gc 0x4E00 = CharCategory.Kanji ∧
    categorize_char uni alnum gc 0x005F = CharCategory.Word ∧
    categorize_char uni alnum gc 0x0021 = CharCategory.Punctuation ∧
    categorize_char uni alnum gc 0x0020 = CharCategory.Whitespace ∧
    categorize_char uni alnum gc 0xE000 = CharCategory.Unknown ∧
    (∀ c, inRanges hiragana_ranges c = true →
      categorize_char uni alnum gc c = CharCategory.Hiragana) ∧
    (∀ c, inRanges katakana_ranges c = true →
      categorize_char uni alnum gc c = CharCategory.Katakana) ∧
    (∀ c, inRanges kanji_ranges c = true →
      categorize_char uni alnum gc c = CharCategory.Kanji) := by
  refine ⟨?_, ?_, ?_, ?_, ?_, ?_, ?_, ?_, ?_, ?_, ?_⟩
  · simp [categorize_char, char_is_hiragana, char_is_katakana,
      char_is_kanji, inRanges, hiragana_ranges, katakana_ranges,
      kanji_ranges, char_is_line_ending, LineEnding.from_char]
  · simp [categorize_char, char_is_hiragana, inRanges, hiragana_ranges]
  · simp [categorize_char, char_is_hiragana, char_is_katakana, inRanges,
      hiragana_ranges, katakana_ranges]
  · simp [categorize_char, char_is_hiragana, char_is_katakana,
      char_is_kanji, inRanges, hiragana_ranges, katakana_ranges,
      kanji_ranges]
  · simp [categorize_char, char_is_hiragana, char_is_katakana,
      char_is_kanji, inRanges, hiragana_ranges, katakana_ranges,
      kanji_ranges, char_is_line_ending, LineEnding.from_char,
      is_whitespace, char_is_word]
  · simp [categorize_char, char_is_hiragana, char_is_katakana,
      char_is_kanji, inRanges, hiragana_ranges, katakana_ranges,
      kanji_ranges, char_is_line_ending, LineEnding.from_char,
      is_whitespace, char_is_word, char_is_punctuation, ha1, hg1]
  · simp [categorize_char, char_is_hiragana, char_is_katakana,
      char_is_kanji, inRanges, hiragana_ranges, katakana_ranges,
      kanji_ranges, char_is_line_ending, LineEnding.from_char,
      is_whitespace]
  · simp [categorize_char, char_is_hiragana, char_is_katakana,
      char_is_kanji, inRanges, hiragana_ranges, katakana_ranges,
      kanji_ranges, char_is_line_ending, LineEnding.from_char,
      is_whitespace, char_is_word, char_is_punctuation, ha2, hg2]
  · intro c hc
    simp [categorize_char, char_is_hiragana, hc]
  · intro c hc
    have hc' := (char_is_katakana_iff c).mp hc
    have hh : ¬ char_is_hiragana c = true := by
      rw [char_is_hiragana_iff]; omega
    simp [categorize_char, char_is_katakana, hh, hc]
  · intro c hc
    have hc' := (char_is_kanji_iff c).mp hc
    have hh : ¬ char_is_hiragana c = true := by
      rw [char_is_hiragana_iff]; omega
    have hk : ¬ char_is_katakana c = true := by
      rw [char_is_katakana_iff]; omega
    simp [categorize_char, char_is_kanji, hh, hk, hc]

/-- Witness for C8: two scenarios that exercise all four hypotheses,
instantiated at the concrete collaborator models. -/
theorem categorize_char_scenarios_witness :
    categorize_char false alnum_model gc_model 0x0021 =
      CharCategory.Punctuation ∧
    categorize_char false alnum_model gc_model 0xE000 =
      CharCategory.Unknown :=
  ⟨(categorize_char_scenarios false alnum_model gc_model rfl (by decide)
      rfl (by decide)).2.2.2.2.2.1,
   (categorize_char_scenarios false alnum_model gc_model rfl (by decide)
      rfl (by decide)).2.2.2.2.2.2.2.1⟩
